import Mathlib

/-!
Verification development for `riptide_navigation/src/thrust_mapper.cpp`.

The file embeds the thrust-allocation core of the program: the vehicle
constants, the startup population of the thruster geometry table, the six
residual functions handed to the numerical solver, the per-thruster box
bounds, and the per-command callback cycle.  Real numbers of the program
are modelled as rationals; the external nonlinear least-squares solver is
modelled as an abstract function whose relevant contract clauses (box
feasibility, least-squares optimality over the box, termination at a
zero-cost initial guess) appear as explicit hypotheses where a claim
needs them.
-/

/-- Thrust limits (N), `MIN_THRUST` at line 17 of thrust_mapper.cpp. -/
def MIN_THRUST : ℚ := -18

/-- Thrust limits (N), `MAX_THRUST` at line 18 of thrust_mapper.cpp. -/
def MAX_THRUST : ℚ := 18

/-- Vehicle mass (kg), `MASS` at line 21. -/
def MASS : ℚ := 48.8428

/-- Moment of inertia about x (kg m^2), line 24. -/
def Ix : ℚ := 0.55649783

/-- Moment of inertia about y (kg m^2), line 25. -/
def Iy : ℚ := 1.89075467

/-- Moment of inertia about z (kg m^2), line 26. -/
def Iz : ℚ := 1.96057706

/-- The `vector` struct of thrust_mapper.cpp (lines 36-41). -/
structure Vec3 where
  x : ℚ
  y : ℚ
  z : ℚ
deriving DecidableEq, Repr

/-- The ten force unknowns, the member doubles of `Solver` (lines 161-163). -/
structure Forces where
  surge_stbd_hi : ℚ
  surge_port_hi : ℚ
  surge_port_lo : ℚ
  surge_stbd_lo : ℚ
  sway_fwd : ℚ
  sway_aft : ℚ
  heave_port_aft : ℚ
  heave_stbd_aft : ℚ
  heave_stbd_fwd : ℚ
  heave_port_fwd : ℚ
deriving DecidableEq, Repr

/-- The ten global thruster-position vectors `pos_*` (lines 54-63). -/
structure Geometry where
  pos_surge_stbd_hi : Vec3
  pos_surge_port_hi : Vec3
  pos_surge_port_lo : Vec3
  pos_surge_stbd_lo : Vec3
  pos_sway_fwd : Vec3
  pos_sway_aft : Vec3
  pos_heave_port_aft : Vec3
  pos_heave_stbd_aft : Vec3
  pos_heave_stbd_fwd : Vec3
  pos_heave_port_fwd : Vec3
deriving DecidableEq, Repr

/-- An inbound `geometry_msgs::Accel` message: the six command components
read by the callback (lines 304-310). -/
structure Accel where
  linear : Vec3
  angular : Vec3
deriving DecidableEq, Repr

/-- Names for the ten thrusters, in the order of the outbound message. -/
inductive Thruster
  | surge_stbd_hi
  | surge_port_hi
  | surge_port_lo
  | surge_stbd_lo
  | sway_fwd
  | sway_aft
  | heave_port_aft
  | heave_stbd_aft
  | heave_stbd_fwd
  | heave_port_fwd
deriving DecidableEq, Repr

/-- The tf frame name used for each thruster in the startup lookups
(lines 195-214). -/
def frameOf : Thruster → String
  | .surge_stbd_hi => "/surge_stbd_hi_thruster"
  | .surge_port_hi => "/surge_port_hi_thruster"
  | .surge_port_lo => "/surge_port_lo_thruster"
  | .surge_stbd_lo => "/surge_stbd_lo_thruster"
  | .sway_fwd => "/sway_fwd_thruster"
  | .sway_aft => "/sway_aft_thruster"
  | .heave_port_aft => "/heave_port_aft_thruster"
  | .heave_stbd_aft => "/heave_stbd_aft_thruster"
  | .heave_stbd_fwd => "/heave_stbd_fwd_thruster"
  | .heave_port_fwd => "/heave_port_fwd_thruster"

/-- Force of a named thruster in a `Forces` record. -/
def forceOf (f : Forces) : Thruster → ℚ
  | .surge_stbd_hi => f.surge_stbd_hi
  | .surge_port_hi => f.surge_port_hi
  | .surge_port_lo => f.surge_port_lo
  | .surge_stbd_lo => f.surge_stbd_lo
  | .sway_fwd => f.sway_fwd
  | .sway_aft => f.sway_aft
  | .heave_port_aft => f.heave_port_aft
  | .heave_stbd_aft => f.heave_stbd_aft
  | .heave_stbd_fwd => f.heave_stbd_fwd
  | .heave_port_fwd => f.heave_port_fwd

/-- Stored position of a named thruster in the geometry table. -/
def posOf (g : Geometry) : Thruster → Vec3
  | .surge_stbd_hi => g.pos_surge_stbd_hi
  | .surge_port_hi => g.pos_surge_port_hi
  | .surge_port_lo => g.pos_surge_port_lo
  | .surge_stbd_lo => g.pos_surge_stbd_lo
  | .sway_fwd => g.pos_sway_fwd
  | .sway_aft => g.pos_sway_aft
  | .heave_port_aft => g.pos_heave_port_aft
  | .heave_stbd_aft => g.pos_heave_stbd_aft
  | .heave_stbd_fwd => g.pos_heave_stbd_fwd
  | .heave_port_fwd => g.pos_heave_port_fwd

/-- Startup population of the geometry table, `Solver::Solver` lines
195-225.  `tf` is the external pose/transform service, mapping a frame
name to the looked-up origin.  The temporaries `surge_1..4`, `sway_1..2`,
`heave_1..4` hold the lookup results exactly as the code stores them, and
the record fields are assigned from the temporaries exactly as lines
216-225 assign the `pos_*` globals. -/
def startupGeometry (tf : String → Vec3) : Geometry :=
  let surge_2 := tf "/surge_port_hi_thruster"
  let surge_1 := tf "/surge_stbd_hi_thruster"
  let surge_4 := tf "/surge_port_lo_thruster"
  let surge_3 := tf "/surge_stbd_lo_thruster"
  let sway_1 := tf "/sway_fwd_thruster"
  let sway_2 := tf "/sway_aft_thruster"
  let heave_2 := tf "/heave_port_fwd_thruster"
  let heave_1 := tf "/heave_stbd_fwd_thruster"
  let heave_4 := tf "/heave_port_aft_thruster"
  let heave_3 := tf "/heave_stbd_aft_thruster"
  { pos_surge_port_hi := surge_2
    pos_surge_stbd_hi := surge_1
    pos_surge_port_lo := surge_3
    pos_surge_stbd_lo := surge_4
    pos_sway_fwd := sway_1
    pos_sway_aft := sway_2
    pos_heave_port_fwd := heave_4
    pos_heave_stbd_fwd := heave_3
    pos_heave_port_aft := heave_1
    pos_heave_stbd_aft := heave_2 }

/-- The `surge` residual functor (lines 69-79). -/
def surgeResidual (f : Forces) (cmdSurge : ℚ) : ℚ :=
  (f.surge_stbd_hi + f.surge_port_hi + f.surge_port_lo + f.surge_stbd_lo) / MASS - cmdSurge

/-- The `sway` residual functor (lines 81-89). -/
def swayResidual (f : Forces) (cmdSway : ℚ) : ℚ :=
  (f.sway_fwd + f.sway_aft) / MASS - cmdSway

/-- The `heave` residual functor (lines 91-101). -/
def heaveResidual (f : Forces) (cmdHeave : ℚ) : ℚ :=
  (f.heave_port_aft + f.heave_stbd_aft + f.heave_stbd_fwd + f.heave_port_fwd) / MASS - cmdHeave

/-- The `roll` residual functor (lines 104-116). -/
def rollResidual (g : Geometry) (f : Forces) (cmdRoll : ℚ) : ℚ :=
  (f.heave_port_aft * g.pos_heave_port_aft.y + f.heave_stbd_aft * g.pos_heave_stbd_aft.y +
   f.heave_stbd_fwd * g.pos_heave_stbd_fwd.y + f.heave_port_fwd * g.pos_heave_port_fwd.y +
   f.sway_fwd * g.pos_sway_fwd.z + f.sway_aft * g.pos_sway_aft.z) / Ix - cmdRoll

/-- The `pitch` residual functor (lines 118-132). -/
def pitchResidual (g : Geometry) (f : Forces) (cmdPitch : ℚ) : ℚ :=
  (f.surge_stbd_hi * g.pos_surge_stbd_hi.z + f.surge_port_hi * g.pos_surge_port_hi.z +
   f.surge_port_lo * g.pos_surge_port_lo.z + f.surge_stbd_lo * g.pos_surge_stbd_lo.z +
   f.heave_port_aft * g.pos_heave_port_aft.x + f.heave_stbd_aft * g.pos_heave_stbd_aft.x +
   f.heave_stbd_fwd * g.pos_heave_stbd_fwd.x + f.heave_port_fwd * g.pos_heave_port_fwd.x) / Iy - cmdPitch

/-- The `yaw` residual functor (lines 134-146). -/
def yawResidual (g : Geometry) (f : Forces) (cmdYaw : ℚ) : ℚ :=
  (f.surge_stbd_hi * g.pos_surge_stbd_hi.y + f.surge_port_hi * g.pos_surge_port_hi.y +
   f.surge_port_lo * g.pos_surge_port_lo.y + f.surge_stbd_lo * g.pos_surge_stbd_lo.y +
   f.sway_fwd * g.pos_sway_fwd.x + f.sway_aft * g.pos_sway_aft.x) / Iz - cmdYaw

/-- The four surge thrusters, in the order the `surge` functor takes them. -/
def surgeThrusters : List Thruster :=
  [.surge_stbd_hi, .surge_port_hi, .surge_port_lo, .surge_stbd_lo]

/-- The two sway thrusters. -/
def swayThrusters : List Thruster := [.sway_fwd, .sway_aft]

/-- The four heave thrusters, in the order the `heave` functor takes them. -/
def heaveThrusters : List Thruster :=
  [.heave_port_aft, .heave_stbd_aft, .heave_stbd_fwd, .heave_port_fwd]

/-- Reference surge residual, written from the spec's words: (sum of the 4
surge-thruster forces) / mass minus the commanded surge. -/
def specSurgeResidual (f : Forces) (cmdSurge : ℚ) : ℚ :=
  (surgeThrusters.map (forceOf f)).sum / MASS - cmdSurge

/-- Reference sway residual, written from the spec's words. -/
def specSwayResidual (f : Forces) (cmdSway : ℚ) : ℚ :=
  (swayThrusters.map (forceOf f)).sum / MASS - cmdSway

/-- Reference heave residual, written from the spec's words. -/
def specHeaveResidual (f : Forces) (cmdHeave : ℚ) : ℚ :=
  (heaveThrusters.map (forceOf f)).sum / MASS - cmdHeave

/-- Reference roll residual, written from the spec's words: heave forces
weighted by their lateral (y) offsets plus sway forces weighted by their
vertical (z) offsets, over Ix, minus the commanded roll. -/
def specRollResidual (g : Geometry) (f : Forces) (cmdRoll : ℚ) : ℚ :=
  ((heaveThrusters.map (fun t => forceOf f t * (posOf g t).y)).sum +
   (swayThrusters.map (fun t => forceOf f t * (posOf g t).z)).sum) / Ix - cmdRoll

/-- Reference pitch residual, written from the spec's words: surge forces
weighted by their vertical (z) offsets plus heave forces weighted by their
longitudinal (x) offsets, over Iy, minus the commanded pitch. -/
def specPitchResidual (g : Geometry) (f : Forces) (cmdPitch : ℚ) : ℚ :=
  ((surgeThrusters.map (fun t => forceOf f t * (posOf g t).z)).sum +
   (heaveThrusters.map (fun t => forceOf f t * (posOf g t).x)).sum) / Iy - cmdPitch

/-- Reference yaw residual, written from the spec's words: surge forces
weighted by their lateral (y) offsets plus sway forces weighted by their
longitudinal (x) offsets, over Iz, minus the commanded yaw. -/
def specYawResidual (g : Geometry) (f : Forces) (cmdYaw : ℚ) : ℚ :=
  ((surgeThrusters.map (fun t => forceOf f t * (posOf g t).y)).sum +
   (swayThrusters.map (fun t => forceOf f t * (posOf g t).x)).sum) / Iz - cmdYaw

/-- C3: the three linear residual functions of the code equal the spec's
reference definitions, for every force assignment and every command. -/
theorem C3_linear_residuals (f : Forces) (cs cw ch : ℚ) :
    surgeResidual f cs = specSurgeResidual f cs ∧
    swayResidual f cw = specSwayResidual f cw ∧
    heaveResidual f ch = specHeaveResidual f ch := by
  refine ⟨?_, ?_, ?_⟩ <;>
    simp [surgeResidual, specSurgeResidual, swayResidual, specSwayResidual,
      heaveResidual, specHeaveResidual, surgeThrusters, swayThrusters,
      heaveThrusters, forceOf] <;> ring

/-- Geometry whose roll-relevant components (heave-thruster y offsets and
sway-thruster z offsets) come from `g` and every other component from `w`. -/
def maskRoll (g w : Geometry) : Geometry :=
  { w with
    pos_heave_port_aft := ⟨w.pos_heave_port_aft.x, g.pos_heave_port_aft.y, w.pos_heave_port_aft.z⟩
    pos_heave_stbd_aft := ⟨w.pos_heave_stbd_aft.x, g.pos_heave_stbd_aft.y, w.pos_heave_stbd_aft.z⟩
    pos_heave_stbd_fwd := ⟨w.pos_heave_stbd_fwd.x, g.pos_heave_stbd_fwd.y, w.pos_heave_stbd_fwd.z⟩
    pos_heave_port_fwd := ⟨w.pos_heave_port_fwd.x, g.pos_heave_port_fwd.y, w.pos_heave_port_fwd.z⟩
    pos_sway_fwd := ⟨w.pos_sway_fwd.x, w.pos_sway_fwd.y, g.pos_sway_fwd.z⟩
    pos_sway_aft := ⟨w.pos_sway_aft.x, w.pos_sway_aft.y, g.pos_sway_aft.z⟩ }

/-- Geometry whose pitch-relevant components (surge-thruster z offsets and
heave-thruster x offsets) come from `g` and every other component from `w`. -/
def maskPitch (g w : Geometry) : Geometry :=
  { w with
    pos_surge_stbd_hi := ⟨w.pos_surge_stbd_hi.x, w.pos_surge_stbd_hi.y, g.pos_surge_stbd_hi.z⟩
    pos_surge_port_hi := ⟨w.pos_surge_port_hi.x, w.pos_surge_port_hi.y, g.pos_surge_port_hi.z⟩
    pos_surge_port_lo := ⟨w.pos_surge_port_lo.x, w.pos_surge_port_lo.y, g.pos_surge_port_lo.z⟩
    pos_surge_stbd_lo := ⟨w.pos_surge_stbd_lo.x, w.pos_surge_stbd_lo.y, g.pos_surge_stbd_lo.z⟩
    pos_heave_port_aft := ⟨g.pos_heave_port_aft.x, w.pos_heave_port_aft.y, w.pos_heave_port_aft.z⟩
    pos_heave_stbd_aft := ⟨g.pos_heave_stbd_aft.x, w.pos_heave_stbd_aft.y, w.pos_heave_stbd_aft.z⟩
    pos_heave_stbd_fwd := ⟨g.pos_heave_stbd_fwd.x, w.pos_heave_stbd_fwd.y, w.pos_heave_stbd_fwd.z⟩
    pos_heave_port_fwd := ⟨g.pos_heave_port_fwd.x, w.pos_heave_port_fwd.y, w.pos_heave_port_fwd.z⟩ }

/-- Geometry whose yaw-relevant components (surge-thruster y offsets and
sway-thruster x offsets) come from `g` and every other component from `w`. -/
def maskYaw (g w : Geometry) : Geometry :=
  { w with
    pos_surge_stbd_hi := ⟨w.pos_surge_stbd_hi.x, g.pos_surge_stbd_hi.y, w.pos_surge_stbd_hi.z⟩
    pos_surge_port_hi := ⟨w.pos_surge_port_hi.x, g.pos_surge_port_hi.y, w.pos_surge_port_hi.z⟩
    pos_surge_port_lo := ⟨w.pos_surge_port_lo.x, g.pos_surge_port_lo.y, w.pos_surge_port_lo.z⟩
    pos_surge_stbd_lo := ⟨w.pos_surge_stbd_lo.x, g.pos_surge_stbd_lo.y, w.pos_surge_stbd_lo.z⟩
    pos_sway_fwd := ⟨g.pos_sway_fwd.x, w.pos_sway_fwd.y, w.pos_sway_fwd.z⟩
    pos_sway_aft := ⟨g.pos_sway_aft.x, w.pos_sway_aft.y, w.pos_sway_aft.z⟩ }

/-- The x component of the full 3-D moment-arm cross product torque, over
Ix, minus the commanded roll: surge forces act along +x and contribute
nothing, heave forces (along +z) contribute +y*F, and sway forces (along
+y) contribute -z*F.  This is NOT what the code computes; it is here only
to witness that the code's planar roll equation differs from it. -/
def crossRollResidual (g : Geometry) (f : Forces) (cmdRoll : ℚ) : ℚ :=
  (f.heave_port_aft * g.pos_heave_port_aft.y + f.heave_stbd_aft * g.pos_heave_stbd_aft.y +
   f.heave_stbd_fwd * g.pos_heave_stbd_fwd.y + f.heave_port_fwd * g.pos_heave_port_fwd.y -
   f.sway_fwd * g.pos_sway_fwd.z - f.sway_aft * g.pos_sway_aft.z) / Ix - cmdRoll

/-- The all-zero position vector. -/
def zeroVec : Vec3 := ⟨0, 0, 0⟩

/-- Geometry with every thruster at the origin. -/
def zeroGeometry : Geometry :=
  ⟨zeroVec, zeroVec, zeroVec, zeroVec, zeroVec, zeroVec, zeroVec, zeroVec, zeroVec, zeroVec⟩

/-- Geometry used to separate the planar roll equation from the full cross
product: only the forward sway thruster's vertical offset is nonzero. -/
def crossDemoGeometry : Geometry :=
  { zeroGeometry with pos_sway_fwd := ⟨0, 0, 1⟩ }

/-- The all-zero force assignment (the cold-start initial guess). -/
def zeroForces : Forces := ⟨0, 0, 0, 0, 0, 0, 0, 0, 0, 0⟩

/-- Forces used to separate the planar roll equation from the full cross
product: only the forward sway thruster pushes. -/
def crossDemoForces : Forces := { zeroForces with sway_fwd := 1 }

/-- C4: each angular residual of the code equals the spec's planar
reference definition; each angular residual reads only the single signed
position component perpendicular to its rotation axis for each
contributing force (replacing every other geometry component leaves it
unchanged); and the roll residual differs from the full 3-D moment-arm
cross product on a concrete geometry and force assignment. -/
theorem C4_angular_residuals (g w : Geometry) (f : Forces) (c : ℚ) :
    rollResidual g f c = specRollResidual g f c ∧
    pitchResidual g f c = specPitchResidual g f c ∧
    yawResidual g f c = specYawResidual g f c ∧
    rollResidual (maskRoll g w) f c = rollResidual g f c ∧
    pitchResidual (maskPitch g w) f c = pitchResidual g f c ∧
    yawResidual (maskYaw g w) f c = yawResidual g f c ∧
    rollResidual crossDemoGeometry crossDemoForces 0 ≠
      crossRollResidual crossDemoGeometry crossDemoForces 0 := by
  refine ⟨?_, ?_, ?_, rfl, rfl, rfl, by
    norm_num [rollResidual, crossRollResidual, crossDemoGeometry, crossDemoForces,
      zeroGeometry, zeroForces, zeroVec, Ix]⟩ <;>
    simp [rollResidual, specRollResidual, pitchResidual, specPitchResidual,
      yawResidual, specYawResidual, surgeThrusters, swayThrusters,
      heaveThrusters, forceOf, posOf] <;> ring

/-- Outcome of one external solver invocation: the solved assignment read
back from the parameter blocks, plus the convergence report of the
summary. -/
structure SolveOutcome where
  forces : Forces
  converged : Bool

/-- Type of the external ceres solve step (`ceres::Solve`, line 340): the
geometry table and the current command fix the six residual blocks; the
third argument is the initial guess held in the parameter blocks.  Any
Lean function of this type is deterministic by construction, matching the
spec's deterministic-solver hypothesis. -/
abbrev SolveFun := Geometry → Accel → Forces → SolveOutcome

/-- Mutable state persisting across callbacks: the six command globals
(lines 29-34) and the ten member force doubles (lines 161-163). -/
structure State where
  cmd : Accel
  vars : Forces

/-- An outbound `riptide_msgs::ThrustStamped` message (lines 360-372). -/
structure ThrustStamped where
  stamp : ℚ
  force : Forces
deriving DecidableEq

/-- Per-thruster bounds handed to the solver: one
`SetParameterLowerBound` / `SetParameterUpperBound` pair per unknown,
lines 261-291 of `Solver::Solver`. -/
def problemBounds : Thruster → ℚ × ℚ
  | .surge_port_hi => (MIN_THRUST, MAX_THRUST)
  | .surge_stbd_hi => (MIN_THRUST, MAX_THRUST)
  | .surge_port_lo => (MIN_THRUST, MAX_THRUST)
  | .surge_stbd_lo => (MIN_THRUST, MAX_THRUST)
  | .sway_fwd => (MIN_THRUST, MAX_THRUST)
  | .sway_aft => (MIN_THRUST, MAX_THRUST)
  | .heave_port_fwd => (MIN_THRUST, MAX_THRUST)
  | .heave_stbd_fwd => (MIN_THRUST, MAX_THRUST)
  | .heave_port_aft => (MIN_THRUST, MAX_THRUST)
  | .heave_stbd_aft => (MIN_THRUST, MAX_THRUST)

/-- Every unknown lies within its box bounds, stated per thruster exactly
as the ten bound pairs are installed. -/
def inBox (f : Forces) : Prop :=
  (MIN_THRUST ≤ f.surge_port_hi ∧ f.surge_port_hi ≤ MAX_THRUST) ∧
  (MIN_THRUST ≤ f.surge_stbd_hi ∧ f.surge_stbd_hi ≤ MAX_THRUST) ∧
  (MIN_THRUST ≤ f.surge_port_lo ∧ f.surge_port_lo ≤ MAX_THRUST) ∧
  (MIN_THRUST ≤ f.surge_stbd_lo ∧ f.surge_stbd_lo ≤ MAX_THRUST) ∧
  (MIN_THRUST ≤ f.sway_fwd ∧ f.sway_fwd ≤ MAX_THRUST) ∧
  (MIN_THRUST ≤ f.sway_aft ∧ f.sway_aft ≤ MAX_THRUST) ∧
  (MIN_THRUST ≤ f.heave_port_fwd ∧ f.heave_port_fwd ≤ MAX_THRUST) ∧
  (MIN_THRUST ≤ f.heave_stbd_fwd ∧ f.heave_stbd_fwd ≤ MAX_THRUST) ∧
  (MIN_THRUST ≤ f.heave_port_aft ∧ f.heave_port_aft ≤ MAX_THRUST) ∧
  (MIN_THRUST ≤ f.heave_stbd_aft ∧ f.heave_stbd_aft ≤ MAX_THRUST)

instance (f : Forces) : Decidable (inBox f) := by
  unfold inBox; infer_instance

/-- One execution of `Solver::callback` (lines 302-375): copy the six
command components into the command globals, reset the ten unknowns to
zero, run the external solve step, and build the outbound timestamped
message from the solved values unchanged.  Returns the state after the
cycle together with the message published at line 374. -/
def callback (solve : SolveFun) (g : Geometry) (now : ℚ) (s : State) (a : Accel) :
    State × ThrustStamped :=
  let _ := s
  let out := solve g a zeroForces
  ({ cmd := a, vars := out.forces }, { stamp := now, force := out.forces })

/-- The messages published during one callback: exactly the single
`cmd_pub.publish(thrust)` of line 374. -/
def callbackPublications (solve : SolveFun) (g : Geometry) (now : ℚ) (s : State) (a : Accel) :
    List ThrustStamped :=
  [(callback solve g now s a).2]

/-- The force record published for command `a`. -/
def publishedForces (solve : SolveFun) (g : Geometry) (a : Accel) : Forces :=
  (solve g a zeroForces).forces

/-- Half factor dropped: the objective the solver minimizes, the sum of
the squares of the six residual blocks installed at lines 237-256,
evaluated at command `a` and assignment `f`. -/
def totalCost (g : Geometry) (a : Accel) (f : Forces) : ℚ :=
  surgeResidual f a.linear.x ^ 2 + swayResidual f a.linear.y ^ 2 +
  heaveResidual f a.linear.z ^ 2 + rollResidual g f a.angular.x ^ 2 +
  pitchResidual g f a.angular.y ^ 2 + yawResidual g f a.angular.z ^ 2

/-- A transform service answering each thruster frame with a distinct
position, used to exercise the startup population. -/
def tfDistinct : String → Vec3 := fun s =>
  if s = "/surge_stbd_hi_thruster" then ⟨1, 0, 0⟩
  else if s = "/surge_port_hi_thruster" then ⟨2, 0, 0⟩
  else if s = "/surge_port_lo_thruster" then ⟨3, 0, 0⟩
  else if s = "/surge_stbd_lo_thruster" then ⟨4, 0, 0⟩
  else if s = "/sway_fwd_thruster" then ⟨5, 0, 0⟩
  else if s = "/sway_aft_thruster" then ⟨6, 0, 0⟩
  else if s = "/heave_port_aft_thruster" then ⟨7, 0, 0⟩
  else if s = "/heave_stbd_aft_thruster" then ⟨8, 0, 0⟩
  else if s = "/heave_stbd_fwd_thruster" then ⟨9, 0, 0⟩
  else if s = "/heave_port_fwd_thruster" then ⟨10, 0, 0⟩
  else ⟨0, 0, 0⟩

/-- C1: refuted on the code.  With a transform service answering each
frame with a distinct position, the startup population of `Solver::Solver`
stores another thruster's queried position for six of the ten thrusters:
`pos_surge_port_lo` and `pos_surge_stbd_lo` are swapped, and the four
heave positions are pairwise mis-assigned (fwd receives aft and aft
receives the opposite side's fwd).  The theorem evaluates the embedded
startup code at this concrete input. -/
theorem C1_stored_position_mismatch :
    posOf (startupGeometry tfDistinct) .surge_port_lo = tfDistinct (frameOf .surge_stbd_lo) ∧
    posOf (startupGeometry tfDistinct) .surge_port_lo ≠ tfDistinct (frameOf .surge_port_lo) ∧
    posOf (startupGeometry tfDistinct) .surge_stbd_lo = tfDistinct (frameOf .surge_port_lo) ∧
    posOf (startupGeometry tfDistinct) .heave_port_fwd = tfDistinct (frameOf .heave_port_aft) ∧
    posOf (startupGeometry tfDistinct) .heave_stbd_fwd = tfDistinct (frameOf .heave_stbd_aft) ∧
    posOf (startupGeometry tfDistinct) .heave_port_aft = tfDistinct (frameOf .heave_stbd_fwd) ∧
    posOf (startupGeometry tfDistinct) .heave_stbd_aft = tfDistinct (frameOf .heave_port_fwd) ∧
    posOf (startupGeometry tfDistinct) .surge_port_hi = tfDistinct (frameOf .surge_port_hi) := by
  refine ⟨rfl, ?_, rfl, rfl, rfl, rfl, rfl, rfl⟩
  simp [startupGeometry, posOf, frameOf, tfDistinct]

/-- A solver that ignores its inputs and returns the all-zero assignment
as converged; used to instantiate solver-contract hypotheses. -/
def constZeroSolver : SolveFun := fun _ _ _ => ⟨zeroForces, true⟩

/-- C2: under the box-feasibility clause of the solver contract (ceres
honors `SetParameterLowerBound`/`SetParameterUpperBound` as hard
constraints), every published force of every command lies within
[-18, 18]; each of the ten unknowns is given exactly the bounds
(`MIN_THRUST`, `MAX_THRUST`) = (-18, 18); and the published record is the
solver's assignment verbatim, with no post-hoc clamping between the solve
step and the message fields. -/
theorem C2_bound_respect (solve : SolveFun) (g : Geometry) (a : Accel)
    (hsolver : ∀ g' a' f0, inBox (solve g' a' f0).forces) :
    (∀ t : Thruster, problemBounds t = (-18, 18)) ∧
    publishedForces solve g a = (solve g a zeroForces).forces ∧
    inBox (publishedForces solve g a) := by
  refine ⟨fun t => ?_, rfl, hsolver g a zeroForces⟩
  cases t <;> rfl

/-- Witness for C2 at a concrete solver, geometry and command. -/
theorem C2_bound_respect_witness :
    (∀ t : Thruster, problemBounds t = (-18, 18)) ∧
    publishedForces constZeroSolver zeroGeometry ⟨⟨1, 2, 3⟩, ⟨4, 5, 6⟩⟩ =
      (constZeroSolver zeroGeometry ⟨⟨1, 2, 3⟩, ⟨4, 5, 6⟩⟩ zeroForces).forces ∧
    inBox (publishedForces constZeroSolver zeroGeometry ⟨⟨1, 2, 3⟩, ⟨4, 5, 6⟩⟩) :=
  C2_bound_respect constZeroSolver zeroGeometry ⟨⟨1, 2, 3⟩, ⟨4, 5, 6⟩⟩
    (fun _ _ _ => show inBox zeroForces by decide)

/-- The all-zero acceleration command. -/
def zeroAccel : Accel := ⟨⟨0, 0, 0⟩, ⟨0, 0, 0⟩⟩

/-- C5: for the all-zero command, each of the six residuals is zero at the
all-zero initial guess (for every geometry table), and — under the solver
contract clause that a local iterative search already at a zero-cost point
returns its initial guess unchanged — the published result is exactly the
all-zero force record (hence within any tolerance). -/
theorem C5_zero_command (solve : SolveFun) (g : Geometry)
    (hstationary : totalCost g zeroAccel zeroForces = 0 →
      (solve g zeroAccel zeroForces).forces = zeroForces) :
    surgeResidual zeroForces zeroAccel.linear.x = 0 ∧
    swayResidual zeroForces zeroAccel.linear.y = 0 ∧
    heaveResidual zeroForces zeroAccel.linear.z = 0 ∧
    rollResidual g zeroForces zeroAccel.angular.x = 0 ∧
    pitchResidual g zeroForces zeroAccel.angular.y = 0 ∧
    yawResidual g zeroForces zeroAccel.angular.z = 0 ∧
    publishedForces solve g zeroAccel = zeroForces := by
  have h1 : surgeResidual zeroForces zeroAccel.linear.x = 0 := by
    simp [surgeResidual, zeroForces, zeroAccel]
  have h2 : swayResidual zeroForces zeroAccel.linear.y = 0 := by
    simp [swayResidual, zeroForces, zeroAccel]
  have h3 : heaveResidual zeroForces zeroAccel.linear.z = 0 := by
    simp [heaveResidual, zeroForces, zeroAccel]
  have h4 : rollResidual g zeroForces zeroAccel.angular.x = 0 := by
    simp [rollResidual, zeroForces, zeroAccel]
  have h5 : pitchResidual g zeroForces zeroAccel.angular.y = 0 := by
    simp [pitchResidual, zeroForces, zeroAccel]
  have h6 : yawResidual g zeroForces zeroAccel.angular.z = 0 := by
    simp [yawResidual, zeroForces, zeroAccel]
  have hc : totalCost g zeroAccel zeroForces = 0 := by
    simp [totalCost, h1, h2, h3, h4, h5, h6]
  exact ⟨h1, h2, h3, h4, h5, h6, hstationary hc⟩

/-- Witness for C5 at a concrete solver and geometry. -/
theorem C5_zero_command_witness :
    (totalCost zeroGeometry zeroAccel zeroForces = 0 →
      (constZeroSolver zeroGeometry zeroAccel zeroForces).forces = zeroForces) ∧
    publishedForces constZeroSolver zeroGeometry zeroAccel = zeroForces :=
  ⟨fun _ => rfl,
    (C5_zero_command constZeroSolver zeroGeometry (fun _ => rfl)).2.2.2.2.2.2⟩

/-- A solver returning the all-zero assignment with the summary reporting
non-convergence; only the report differs from `constZeroSolver`. -/
def constZeroSolverNC : SolveFun := fun _ _ _ => ⟨zeroForces, false⟩

/-- C6: one callback emits exactly one timestamped message, whose force
fields are the solve step's assignment read back verbatim, and two solvers
whose assignments agree produce identical publications even when their
convergence reports differ — no convergence check gates publication. -/
theorem C6_publish_once (solve solve2 : SolveFun) (g : Geometry) (now : ℚ)
    (s : State) (a : Accel)
    (hsame : (solve2 g a zeroForces).forces = (solve g a zeroForces).forces) :
    callbackPublications solve g now s a =
      [{ stamp := now, force := (solve g a zeroForces).forces }] ∧
    (callbackPublications solve g now s a).length = 1 ∧
    callbackPublications solve2 g now s a = callbackPublications solve g now s a := by
  refine ⟨rfl, rfl, ?_⟩
  simp [callbackPublications, callback, hsame]

/-- Witness for C6: the converged and the non-converged zero solvers yield
the same single publication. -/
theorem C6_publish_once_witness :
    callbackPublications constZeroSolver zeroGeometry 0 ⟨zeroAccel, zeroForces⟩ zeroAccel =
      [{ stamp := 0, force := (constZeroSolver zeroGeometry zeroAccel zeroForces).forces }] ∧
    (callbackPublications constZeroSolver zeroGeometry 0 ⟨zeroAccel, zeroForces⟩ zeroAccel).length = 1 ∧
    callbackPublications constZeroSolverNC zeroGeometry 0 ⟨zeroAccel, zeroForces⟩ zeroAccel =
      callbackPublications constZeroSolver zeroGeometry 0 ⟨zeroAccel, zeroForces⟩ zeroAccel :=
  C6_publish_once constZeroSolver constZeroSolverNC zeroGeometry 0
    ⟨zeroAccel, zeroForces⟩ zeroAccel rfl

/-- C7: processing the same command in two successive cycles — the second
starting from the state the first left behind — publishes the same force
record, and the published record does not depend on the pre-cycle state at
all, because the callback overwrites the command globals and resets every
unknown to zero before solving. -/
theorem C7_determinism (solve : SolveFun) (g : Geometry) (s s' : State)
    (now now' : ℚ) (a : Accel) :
    (callback solve g now' (callback solve g now s a).1 a).2.force =
      (callback solve g now s a).2.force ∧
    (callback solve g now s' a).2.force = (callback solve g now s a).2.force :=
  ⟨rfl, rfl⟩

/-- The pure surge command of 3.0 m/s^2, above the achievable maximum
4 * 18 / MASS. -/
def surge3Accel : Accel := ⟨⟨3, 0, 0⟩, ⟨0, 0, 0⟩⟩

/-- The saturated assignment: all four surge thrusters at the upper bound,
everything else off. -/
def satForces : Forces := ⟨18, 18, 18, 18, 0, 0, 0, 0, 0, 0⟩

/-- A solver that returns the saturated assignment, reporting
non-convergence; used to instantiate the optimality hypotheses. -/
def constSatSolver : SolveFun := fun _ _ _ => ⟨satForces, false⟩

/-- If q ≤ t and t is negative then t^2 ≤ q^2. -/
theorem sq_le_sq_of_le_neg (q t : ℚ) (h1 : q ≤ t) (h2 : t < 0) : t ^ 2 ≤ q ^ 2 := by
  nlinarith [mul_nonneg (sub_nonneg.2 h1) (show (0:ℚ) ≤ -(q + t) by linarith)]

/-- If q ≤ t, t is negative, and q^2 ≤ t^2, then q = t. -/
theorem eq_of_le_neg_sq (q t : ℚ) (h1 : q ≤ t) (h2 : t < 0) (h3 : q ^ 2 ≤ t ^ 2) :
    q = t := by
  rcases eq_or_lt_of_le h1 with h | h
  · exact h
  · exfalso
    nlinarith [mul_pos (sub_pos.2 h) (show (0:ℚ) < -(q + t) by linarith)]

/-- C10: for the pure surge command of 3.0 m/s^2, under the spec's
contract that the solver returns the least-squares-optimal point of the
box (hypotheses `hbox`, `hopt`), and provided the geometry admits an
in-box assignment that saturates all four surge thrusters while zeroing
the five other residuals (hypothesis `hsat`), the published result has all
four surge forces exactly at the 18 N upper bound, its surge residual is
nonzero, and repeating the command from any cycle states publishes the
same forces. -/
theorem C10_saturation (solve : SolveFun) (g : Geometry)
    (hbox : inBox (publishedForces solve g surge3Accel))
    (hopt : ∀ f, inBox f →
      totalCost g surge3Accel (publishedForces solve g surge3Accel) ≤
        totalCost g surge3Accel f)
    (hsat : ∃ fs, inBox fs ∧
      fs.surge_stbd_hi = MAX_THRUST ∧ fs.surge_port_hi = MAX_THRUST ∧
      fs.surge_port_lo = MAX_THRUST ∧ fs.surge_stbd_lo = MAX_THRUST ∧
      swayResidual fs surge3Accel.linear.y = 0 ∧
      heaveResidual fs surge3Accel.linear.z = 0 ∧
      rollResidual g fs surge3Accel.angular.x = 0 ∧
      pitchResidual g fs surge3Accel.angular.y = 0 ∧
      yawResidual g fs surge3Accel.angular.z = 0) :
    (publishedForces solve g surge3Accel).surge_stbd_hi = MAX_THRUST ∧
    (publishedForces solve g surge3Accel).surge_port_hi = MAX_THRUST ∧
    (publishedForces solve g surge3Accel).surge_port_lo = MAX_THRUST ∧
    (publishedForces solve g surge3Accel).surge_stbd_lo = MAX_THRUST ∧
    surgeResidual (publishedForces solve g surge3Accel) surge3Accel.linear.x ≠ 0 ∧
    ∀ s s' : State, ∀ now now' : ℚ,
      (callback solve g now s surge3Accel).2.force =
        (callback solve g now' s' surge3Accel).2.force := by
  obtain ⟨fs, hfsbox, e1, e2, e3, e4, r2, r3, r4, r5, r6⟩ := hsat
  set o := publishedForces solve g surge3Accel with ho
  have hM : (0:ℚ) < MASS := by norm_num [MASS]
  have hfs_surge : surgeResidual fs surge3Accel.linear.x = 72 / MASS - 3 := by
    simp only [surgeResidual, e1, e2, e3, e4]
    norm_num [MAX_THRUST, surge3Accel]
  have hcost_fs : totalCost g surge3Accel fs = (72 / MASS - 3) ^ 2 := by
    simp only [totalCost, hfs_surge, r2, r3, r4, r5, r6]
    ring
  have hle : totalCost g surge3Accel o ≤ (72 / MASS - 3) ^ 2 :=
    hcost_fs ▸ hopt fs hfsbox
  have hlb : surgeResidual o surge3Accel.linear.x ^ 2 ≤ totalCost g surge3Accel o := by
    simp only [totalCost]
    nlinarith [sq_nonneg (swayResidual o surge3Accel.linear.y),
      sq_nonneg (heaveResidual o surge3Accel.linear.z),
      sq_nonneg (rollResidual g o surge3Accel.angular.x),
      sq_nonneg (pitchResidual g o surge3Accel.angular.y),
      sq_nonneg (yawResidual g o surge3Accel.angular.z)]
  obtain ⟨⟨hph1, hph2⟩, ⟨hsh1, hsh2⟩, ⟨hpl1, hpl2⟩, ⟨hsl1, hsl2⟩, -⟩ := hbox
  simp only [MIN_THRUST, MAX_THRUST] at hph1 hph2 hsh1 hsh2 hpl1 hpl2 hsl1 hsl2
  have hS : o.surge_stbd_hi + o.surge_port_hi + o.surge_port_lo + o.surge_stbd_lo ≤ 72 := by
    linarith
  have hq : surgeResidual o surge3Accel.linear.x =
      (o.surge_stbd_hi + o.surge_port_hi + o.surge_port_lo + o.surge_stbd_lo) / MASS - 3 := by
    simp only [surgeResidual]
    norm_num [surge3Accel]
  have hqle : surgeResidual o surge3Accel.linear.x ≤ 72 / MASS - 3 := by
    rw [hq]
    have h1 : (o.surge_stbd_hi + o.surge_port_hi + o.surge_port_lo + o.surge_stbd_lo) * MASS⁻¹ ≤
        72 * MASS⁻¹ :=
      mul_le_mul_of_nonneg_right hS (le_of_lt (inv_pos.2 hM))
    rw [div_eq_mul_inv, div_eq_mul_inv]
    linarith
  have ht : (72 / MASS - 3 : ℚ) < 0 := by norm_num [MASS]
  have hq2 : surgeResidual o surge3Accel.linear.x ^ 2 ≤ (72 / MASS - 3) ^ 2 :=
    le_trans hlb hle
  have hqt : surgeResidual o surge3Accel.linear.x = 72 / MASS - 3 :=
    eq_of_le_neg_sq _ _ hqle ht hq2
  have hS72 : o.surge_stbd_hi + o.surge_port_hi + o.surge_port_lo + o.surge_stbd_lo = 72 := by
    rw [hq] at hqt
    have hM0 : (MASS:ℚ) ≠ 0 := ne_of_gt hM
    field_simp [hM0] at hqt
    linarith
  refine ⟨?_, ?_, ?_, ?_, ?_, fun s s' now now' => rfl⟩
  · simp only [MAX_THRUST]; linarith
  · simp only [MAX_THRUST]; linarith
  · simp only [MAX_THRUST]; linarith
  · simp only [MAX_THRUST]; linarith
  · rw [hqt]
    norm_num [MASS]

/-- Witness for C10 at the saturating constant solver and the all-origin
geometry. -/
theorem C10_saturation_witness :
    (publishedForces constSatSolver zeroGeometry surge3Accel).surge_stbd_hi = MAX_THRUST ∧
    (publishedForces constSatSolver zeroGeometry surge3Accel).surge_port_hi = MAX_THRUST ∧
    (publishedForces constSatSolver zeroGeometry surge3Accel).surge_port_lo = MAX_THRUST ∧
    (publishedForces constSatSolver zeroGeometry surge3Accel).surge_stbd_lo = MAX_THRUST ∧
    surgeResidual (publishedForces constSatSolver zeroGeometry surge3Accel)
      surge3Accel.linear.x ≠ 0 ∧
    ∀ s s' : State, ∀ now now' : ℚ,
      (callback constSatSolver zeroGeometry now s surge3Accel).2.force =
        (callback constSatSolver zeroGeometry now' s' surge3Accel).2.force := by
  refine C10_saturation constSatSolver zeroGeometry ?_ ?_ ?_
  · show inBox satForces
    decide
  · intro f hf
    have hM : (0:ℚ) < MASS := by norm_num [MASS]
    have hL : totalCost zeroGeometry surge3Accel satForces = (72 / MASS - 3) ^ 2 := by
      norm_num [totalCost, surgeResidual, swayResidual, heaveResidual,
        rollResidual, pitchResidual, yawResidual, satForces, zeroGeometry,
        zeroVec, surge3Accel]
    have hR : totalCost zeroGeometry surge3Accel f =
        ((f.surge_stbd_hi + f.surge_port_hi + f.surge_port_lo + f.surge_stbd_lo) / MASS - 3) ^ 2 +
        ((f.sway_fwd + f.sway_aft) / MASS) ^ 2 +
        ((f.heave_port_aft + f.heave_stbd_aft + f.heave_stbd_fwd + f.heave_port_fwd) / MASS) ^ 2 := by
      simp [totalCost, surgeResidual, swayResidual, heaveResidual,
        rollResidual, pitchResidual, yawResidual, zeroGeometry, zeroVec, surge3Accel]
    obtain ⟨⟨hph1, hph2⟩, ⟨hsh1, hsh2⟩, ⟨hpl1, hpl2⟩, ⟨hsl1, hsl2⟩, -⟩ := hf
    simp only [MIN_THRUST, MAX_THRUST] at hph1 hph2 hsh1 hsh2 hpl1 hpl2 hsl1 hsl2
    have hS : f.surge_stbd_hi + f.surge_port_hi + f.surge_port_lo + f.surge_stbd_lo ≤ 72 := by
      linarith
    have hqle : (f.surge_stbd_hi + f.surge_port_hi + f.surge_port_lo + f.surge_stbd_lo) / MASS - 3 ≤
        72 / MASS - 3 := by
      have h1 : (f.surge_stbd_hi + f.surge_port_hi + f.surge_port_lo + f.surge_stbd_lo) * MASS⁻¹ ≤
          72 * MASS⁻¹ :=
        mul_le_mul_of_nonneg_right hS (le_of_lt (inv_pos.2 hM))
      rw [div_eq_mul_inv, div_eq_mul_inv]
      linarith
    have ht : (72 / MASS - 3 : ℚ) < 0 := by norm_num [MASS]
    have hmain :=
      sq_le_sq_of_le_neg
        ((f.surge_stbd_hi + f.surge_port_hi + f.surge_port_lo + f.surge_stbd_lo) / MASS - 3)
        (72 / MASS - 3) hqle ht
    have hpub : publishedForces constSatSolver zeroGeometry surge3Accel = satForces := rfl
    rw [hpub, hL, hR]
    have h2 := sq_nonneg ((f.sway_fwd + f.sway_aft) / MASS)
    have h3 := sq_nonneg
      ((f.heave_port_aft + f.heave_stbd_aft + f.heave_stbd_fwd + f.heave_port_fwd) / MASS)
    linarith
  · refine ⟨satForces, by decide, rfl, rfl, rfl, rfl, ?_, ?_, ?_, ?_, ?_⟩ <;>
      norm_num [swayResidual, heaveResidual, rollResidual, pitchResidual,
        yawResidual, satForces, zeroGeometry, zeroVec, surge3Accel]
